
import Mathlib

/-- `type outcome bool` from `window.go`. -/
def outcome := Bool

instance : DecidableEq outcome := instDecidableEqBool

/-- `const success outcome = true`. -/
def success : outcome := true

/-- `const failure outcome = false`. -/
def failure : outcome := false

/-- `slidingWindow` from `window.go`: a fixed-size ring buffer of outcomes.
`buf` has fixed length (the capacity), `pos` is the next write position,
`count` the number of recorded outcomes (up to the capacity), `fails` the
number of failures currently in the window. -/
structure slidingWindow where
  buf : List outcome
  pos : Nat
  count : Nat
  fails : Nat
deriving DecidableEq

/-- `newSlidingWindow(size int)`: capacity clamped below by 1; Go's
`make([]outcome, size)` fills the buffer with the zero value `false`. -/
def newSlidingWindow (size : Int) : slidingWindow :=
  let n : Int := if size ≤ 0 then 1 else size
  { buf := List.replicate n.toNat failure, pos := 0, count := 0, fails := 0 }

/-- `(*slidingWindow).record`: append at the cursor, wrapping; once full,
the overwritten slot adjusts `fails` before the write. `List.getD`'s
default is irrelevant on reachable states, where `pos < buf.length`. -/
def slidingWindow.record (w : slidingWindow) (o : outcome) : slidingWindow :=
  let w1 :=
    if w.count = w.buf.length then
      if w.buf.getD w.pos failure = failure then { w with fails := w.fails - 1 } else w
    else
      { w with count := w.count + 1 }
  let w2 := { w1 with buf := w1.buf.set w1.pos o,
                      fails := if o = failure then w1.fails + 1 else w1.fails }
  { w2 with pos := (w2.pos + 1) % w2.buf.length }

/-- `(*slidingWindow).failureRate`: 0 when nothing recorded, else
`fails / count` (exact rational in place of `float64`). -/
def slidingWindow.failureRate (w : slidingWindow) : ℚ :=
  if w.count = 0 then 0 else (w.fails : ℚ) / (w.count : ℚ)

/-- `(*slidingWindow).total`. -/
def slidingWindow.total (w : slidingWindow) : Nat := w.count

/-- `(*slidingWindow).reset`: clears cursor and counters; the buffer
contents themselves are not cleared by the source either. -/
def slidingWindow.reset (w : slidingWindow) : slidingWindow :=
  { w with pos := 0, count := 0, fails := 0 }

/-- `State` from the state file: `StateClosed`, `StateOpen`, `StateHalfOpen`. -/
inductive State where
  | StateClosed
  | StateOpen
  | StateHalfOpen
deriving DecidableEq, Repr

/-- Go `error` values relevant to the breaker: the package-level
`ErrCircuitOpen`, the caller's own cancellation error, and arbitrary
operation errors. -/
inductive GoError where
  | circuitOpen
  | contextCanceled
  | opError (code : Int)
deriving DecidableEq, Repr

/-- `Config` from `window.go`. `OnStateChange` is modelled by the event
lists returned from each operation rather than stored as a field. -/
structure Config where
  Name : String
  WindowSize : Int
  FailureThreshold : ℚ
  MinRequests : Int
  RecoveryTimeout : Int
  ProbeCount : Int
  Fallback : Option (GoError → Option Int × Option GoError)

/-- `(*Config).withDefaults`: non-positive numeric fields are replaced by
the documented defaults; nothing else is changed and nothing is rejected. -/
def Config.withDefaults (c : Config) : Config :=
  let cfg := c
  let cfg := if cfg.WindowSize ≤ 0 then { cfg with WindowSize := 20 } else cfg
  let cfg := if cfg.FailureThreshold ≤ 0 then { cfg with FailureThreshold := 1/2 } else cfg
  let cfg := if cfg.MinRequests ≤ 0 then { cfg with MinRequests := 5 } else cfg
  let cfg := if cfg.RecoveryTimeout ≤ 0 then { cfg with RecoveryTimeout := 30 } else cfg
  let cfg := if cfg.ProbeCount ≤ 0 then { cfg with ProbeCount := 3 } else cfg
  cfg

/-- `CircuitBreaker` from `window.go` (mutable fields; the `now` clock is
passed to each operation instead of being stored). -/
structure CircuitBreaker where
  cfg : Config
  state : State
  window : slidingWindow
  openedAt : Int
  lastStateChange : Int
  probeSuccesses : Int
  totalRequests : Nat
  totalSuccesses : Nat
  totalFailures : Nat

/-- One `OnStateChange` notification: `(name, from, to)`. -/
structure Transition where
  name : String
  fromState : State
  toState : State
deriving DecidableEq, Repr

/-- `New(cfg Config)`: applies defaults, starts `Closed` with a fresh
window; `lastStateChange` is the construction time `t0` (`time.Now()`),
`openedAt` the zero time (0 here). -/
def New (cfg : Config) (t0 : Int) : CircuitBreaker :=
  let cfg := cfg.withDefaults
  { cfg := cfg
    state := State.StateClosed
    window := newSlidingWindow cfg.WindowSize
    openedAt := 0
    lastStateChange := t0
    probeSuccesses := 0
    totalRequests := 0
    totalSuccesses := 0
    totalFailures := 0 }

/-- `(*CircuitBreaker).setState`: suppressed when `from == to`; otherwise
sets the state and `lastStateChange` and fires the hook (returned as an
event). -/
def CircuitBreaker.setState (cb : CircuitBreaker) (next : State) (t : Int) :
    CircuitBreaker × List Transition :=
  if cb.state = next then (cb, [])
  else ({ cb with state := next, lastStateChange := t },
        [{ name := cb.cfg.Name, fromState := cb.state, toState := next }])

/-- `(*CircuitBreaker).beforeCall`: admission check. Returns the possibly
updated breaker, the rejection error (`none` = admitted), and hook events. -/
def CircuitBreaker.beforeCall (cb : CircuitBreaker) (t : Int) :
    CircuitBreaker × Option GoError × List Transition :=
  match cb.state with
  | State.StateClosed => (cb, none, [])
  | State.StateOpen =>
      if cb.cfg.RecoveryTimeout ≤ t - cb.openedAt then
        let (cb, evs) := cb.setState State.StateHalfOpen t
        (cb, none, evs)
      else
        (cb, some GoError.circuitOpen, [])
  | State.StateHalfOpen => (cb, none, [])

/-- `(*CircuitBreaker).afterCall`: records the outcome and performs state
transitions. `err` is the operation's error (`none` = success). -/
def CircuitBreaker.afterCall (cb : CircuitBreaker) (t : Int) (err : Option GoError) :
    CircuitBreaker × List Transition :=
  match cb.state with
  | State.StateClosed =>
      let w := cb.window.record (if err.isSome then failure else success)
      let cb := { cb with window := w }
      if cb.cfg.MinRequests ≤ (w.total : Int) ∧ cb.cfg.FailureThreshold ≤ w.failureRate then
        let (cb, evs) := cb.setState State.StateOpen t
        ({ cb with openedAt := t }, evs)
      else
        (cb, [])
  | State.StateOpen => (cb, [])
  | State.StateHalfOpen =>
      if err.isSome then
        let (cb, evs) := cb.setState State.StateOpen t
        ({ cb with openedAt := t, probeSuccesses := 0 }, evs)
      else
        let cb := { cb with probeSuccesses := cb.probeSuccesses + 1 }
        if cb.cfg.ProbeCount ≤ cb.probeSuccesses then
          let (cb, evs) := cb.setState State.StateClosed t
          ({ cb with window := cb.window.reset, probeSuccesses := 0 }, evs)
        else
          (cb, [])

/-- `(*CircuitBreaker).State`: the state query, performing the lazy
`Open → HalfOpen` timeout transition before reporting. -/
def CircuitBreaker.State (cb : CircuitBreaker) (t : Int) :
    CircuitBreaker × State × List Transition :=
  if cb.state = State.StateOpen ∧ cb.cfg.RecoveryTimeout ≤ t - cb.openedAt then
    let (cb, evs) := cb.setState State.StateHalfOpen t
    (cb, cb.state, evs)
  else
    (cb, cb.state, [])

/-- `Metrics` snapshot structure from `metrics.go`. -/
structure Metrics where
  TotalRequests : Nat
  TotalSuccesses : Nat
  TotalFailures : Nat
  CurrentState : State
  LastStateChange : Int
  WindowFailureRate : ℚ
deriving DecidableEq

/-- `(*CircuitBreaker).Metrics`: a snapshot read under the lock; performs
no lazy transition. -/
def CircuitBreaker.Metrics (cb : CircuitBreaker) : Metrics :=
  { TotalRequests := cb.totalRequests
    TotalSuccesses := cb.totalSuccesses
    TotalFailures := cb.totalFailures
    CurrentState := cb.state
    LastStateChange := cb.lastStateChange
    WindowFailureRate := cb.window.failureRate }

/-- `(*CircuitBreaker).Execute`: the per-call protocol. `t` is the clock
reading during this call, `canceled` whether `ctx.Err() != nil` at the
post-call check, `fn` the wrapped operation, returning `(result, err)`.
Returns the new breaker, the `(result, err)` pair given to the caller, and
the hook events fired. -/
def CircuitBreaker.Execute (cb : CircuitBreaker) (t : Int) (canceled : Bool)
    (fn : Unit → Option Int × Option GoError) :
    CircuitBreaker × (Option Int × Option GoError) × List Transition :=
  let cb := { cb with totalRequests := cb.totalRequests + 1 }
  match cb.beforeCall t with
  | (cb1, some e, evs) =>
      let cb2 := { cb1 with totalFailures := cb1.totalFailures + 1 }
      match cb2.cfg.Fallback with
      | some fb => (cb2, fb e, evs)
      | none => (cb2, (none, some e), evs)
  | (cb1, none, evs) =>
      let r := fn ()
      if r.2.isSome ∧ canceled then
        (cb1, r, evs)
      else
        let (cb2, evs2) := cb1.afterCall t r.2
        let cb3 :=
          if r.2.isSome then { cb2 with totalFailures := cb2.totalFailures + 1 }
          else { cb2 with totalSuccesses := cb2.totalSuccesses + 1 }
        (cb3, r, evs ++ evs2)

/-- `Registry` from `registry.go`: the `map[string]*CircuitBreaker` is
embedded as an association list (most recent insertion first), looked up
with `List.lookup`. -/
structure Registry where
  breakers : List (String × CircuitBreaker)
  defaultCfg : Config

/-- `NewRegistry(defaultCfg Config)`. -/
def NewRegistry (defaultCfg : Config) : Registry :=
  { breakers := [], defaultCfg := defaultCfg }

/-- `(*Registry).Get`: return the breaker registered under `name`,
creating one from the default config (with `Name` set to `name`) on first
access. `t` is the construction time handed to `New` if one is created. -/
def Registry.Get (r : Registry) (name : String) (t : Int) :
    CircuitBreaker × Registry :=
  match r.breakers.lookup name with
  | some cb => (cb, r)
  | none =>
      let cfg := { r.defaultCfg with Name := name }
      let cb := New cfg t
      (cb, { r with breakers := (name, cb) :: r.breakers })

/-- `(*Registry).GetWithConfig`: like `Get` but with an explicit config,
used only when `name` has no breaker yet; otherwise the config is ignored. -/
def Registry.GetWithConfig (r : Registry) (name : String) (cfg : Config) (t : Int) :
    CircuitBreaker × Registry :=
  match r.breakers.lookup name with
  | some cb => (cb, r)
  | none =>
      let cb := New { cfg with Name := name } t
      (cb, { r with breakers := (name, cb) :: r.breakers })

/-- `(*Registry).All`: builds a fresh mapping holding the current
name-to-breaker associations, entry by entry, as the source's copy loop
does. -/
def Registry.All (r : Registry) : List (String × CircuitBreaker) :=
  r.breakers.foldr (fun kv acc => kv :: acc) []

/-- One registry operation, for reasoning about arbitrary later call
sequences against a registry. -/
inductive RegOp where
  | get (name : String) (t : Int)
  | getWith (name : String) (cfg : Config) (t : Int)

/-- Apply one registry operation. -/
def Registry.applyOp (r : Registry) : RegOp → CircuitBreaker × Registry
  | RegOp.get name t => r.Get name t
  | RegOp.getWith name cfg t => r.GetWithConfig name cfg t

/-- Apply a sequence of registry operations, keeping the final registry. -/
def Registry.applyOps (r : Registry) (ops : List RegOp) : Registry :=
  ops.foldl (fun r op => (r.applyOp op).2) r

/-- Number of `failure` outcomes in a list. -/
def failCount : List outcome → Nat
  | [] => 0
  | o :: os => (if o = failure then 1 else 0) + failCount os

/-- Record a whole sequence of outcomes, oldest first. -/
def applyRecords (w : slidingWindow) (os : List outcome) : slidingWindow :=
  os.foldl slidingWindow.record w

/-- The outcomes a capacity-`n` tracker holds after recording `os`:
the last `min os.length n` of them. -/
def heldSpec (n : Nat) (os : List outcome) : List outcome :=
  os.drop (os.length - min os.length n)

/-- Abstraction relation: the ring buffer `w` faithfully represents the
record history `os` for capacity `n` — cursor, count, failure counter and
the held slots all match the history. -/
def windowRep (n : Nat) (os : List outcome) (w : slidingWindow) : Prop :=
  w.buf.length = n ∧
  w.pos = os.length % n ∧
  w.count = min os.length n ∧
  w.fails = failCount (heldSpec n os) ∧
  ∀ j, j < min os.length n →
    w.buf.getD ((os.length - min os.length n + j) % n) failure
      = (heldSpec n os).getD j failure

/-- An all-zero configuration: `New` replaces every numeric field by its
documented default. -/
def cfg0 : Config :=
  { Name := "svc", WindowSize := 0, FailureThreshold := 0, MinRequests := 0,
    RecoveryTimeout := 0, ProbeCount := 0, Fallback := none }

/-- One `Execute` call whose operation fails while the caller's own
context is cancelled. -/
def canceledCall (cb : CircuitBreaker) : CircuitBreaker :=
  (cb.Execute 0 true (fun _ => (none, some (GoError.opError 7)))).1

/-- One `Execute` call descriptor: clock reading, whether the caller's
context is cancelled at the post-call check, and the operation. -/
structure Call where
  t : Int
  canceled : Bool
  fn : Unit → Option Int × Option GoError

/-- Whether a call is cancellation-excluded: it is admitted, its operation
errs, and the caller's context is cancelled. -/
def excludedCall (cb : CircuitBreaker) (c : Call) : Bool :=
  (decide ((({ cb with totalRequests := cb.totalRequests + 1 } :
      CircuitBreaker).beforeCall c.t).2.1 = none))
    && (c.fn ()).2.isSome && c.canceled

/-- Run a sequence of `Execute` calls, counting the
cancellation-excluded ones. -/
def runCount : CircuitBreaker → List Call → CircuitBreaker × Nat
  | cb, [] => (cb, 0)
  | cb, c :: cs =>
      let p := runCount (cb.Execute c.t c.canceled c.fn).1 cs
      (p.1, (if excludedCall cb c then 1 else 0) + p.2)

/-- The C1 configuration: window 10, threshold 0.5, min requests 5,
recovery timeout `T`, no fallback. -/
def cfgC1 (T : Int) : Config :=
  { Name := "c1", WindowSize := 10, FailureThreshold := 1/2, MinRequests := 5,
    RecoveryTimeout := T, ProbeCount := 3, Fallback := none }

/-- One failing call at time 0 (operation errs, context not cancelled). -/
def failStep (cb : CircuitBreaker) : CircuitBreaker :=
  (cb.Execute 0 false (fun _ => (none, some (GoError.opError 1)))).1

/-- One successful call at time `t`. -/
def okCall (t : Int) (cb : CircuitBreaker) : CircuitBreaker :=
  (cb.Execute t false (fun _ => (some 0, none))).1

/-- One failing (non-cancelled) call at time `t`. -/
def errCall (t : Int) (cb : CircuitBreaker) : CircuitBreaker :=
  (cb.Execute t false (fun _ => (none, some (GoError.opError 1)))).1

/-- A breaker probing in HalfOpen under the C1 configuration. -/
def cbHalfOpen : CircuitBreaker :=
  { cfg := cfgC1 30, state := State.StateHalfOpen,
    window := { buf := List.replicate 10 failure, pos := 5, count := 5,
                fails := 5 },
    openedAt := 0, lastStateChange := 0, probeSuccesses := 0,
    totalRequests := 6, totalSuccesses := 0, totalFailures := 5 }

/-- A tripped breaker under the C1 configuration. -/
def cbOpen : CircuitBreaker :=
  { cfg := cfgC1 30, state := State.StateOpen,
    window := { buf := List.replicate 10 failure, pos := 5, count := 5,
                fails := 5 },
    openedAt := 0, lastStateChange := 0, probeSuccesses := 0,
    totalRequests := 5, totalSuccesses := 0, totalFailures := 5 }

/-- An empty registry over the all-default configuration. -/
def reg0 : Registry := NewRegistry cfg0

/-! ## Theorems -/

theorem failCount_append (l1 l2 : List outcome) :
    failCount (l1 ++ l2) = failCount l1 + failCount l2 := by
  induction l1 with
  | nil => simp [failCount]
  | cons o os ih => simp [failCount, ih]; omega

theorem failCount_le_length (l : List outcome) : failCount l ≤ l.length := by
  induction l with
  | nil => simp [failCount]
  | cons o os ih =>
      simp only [failCount, List.length_cons]
      split <;> omega

theorem windowRep_new (size : Int) (h : 1 ≤ size) :
    windowRep size.toNat [] (newSlidingWindow size) := by
  have h0 : ¬ (size ≤ 0) := by omega
  refine ⟨?_, ?_, ?_, ?_, ?_⟩ <;>
    simp [newSlidingWindow, heldSpec, failCount, h0]

theorem windowRep_record (n : Nat) (hn : 0 < n) (os : List outcome)
    (w : slidingWindow) (o : outcome) (h : windowRep n os w) :
    windowRep n (os ++ [o]) (w.record o) := by
  obtain ⟨hlen, hpos, hcount, hfails, hslots⟩ := h
  by_cases hcase : os.length < n
  · -- buffer not yet full: the record appends without eviction
    have hc : min os.length n = os.length := Nat.min_eq_left (le_of_lt hcase)
    have hfull : ¬ (w.count = w.buf.length) := by
      rw [hcount, hlen, hc]; omega
    have hposm : w.pos = os.length := by rw [hpos, Nat.mod_eq_of_lt hcase]
    have hheld : heldSpec n os = os := by
      simp [heldSpec, hc]
    have hc' : min (os.length + 1) n = os.length + 1 := Nat.min_eq_left (by omega)
    have hheld' : heldSpec n (os ++ [o]) = os ++ [o] := by
      simp [heldSpec, hc']
    have hrec : w.record o =
        { buf := w.buf.set os.length o, pos := (os.length + 1) % n,
          count := os.length + 1,
          fails := if o = failure then w.fails + 1 else w.fails } := by
      have hfull' : os.length ≠ n := by omega
      simp [slidingWindow.record, hposm, hcount, hc, hlen, hfull']
    rw [hrec]
    refine ⟨by simp [hlen], by simp, by simp [hc'], ?_, ?_⟩
    · rw [hheld', failCount_append, hfails, hheld]
      by_cases ho : o = (failure : outcome) <;> simp [failCount, ho]
    · intro j hj
      rw [hheld']
      simp only [List.length_append, List.length_singleton, hc',
        Nat.sub_self, Nat.zero_add, List.getD_eq_getElem?_getD]
      rw [List.length_append, List.length_singleton, hc'] at hj
      have hjn : j < n := by omega
      rw [Nat.mod_eq_of_lt hjn]
      rcases Nat.lt_succ_iff_lt_or_eq.mp hj with hjm | hjm
      · have hne : os.length ≠ j := by omega
        rw [List.getElem?_set_ne hne, List.getElem?_append_left hjm]
        have hs := hslots j (by omega)
        rw [hc, Nat.sub_self, Nat.zero_add, Nat.mod_eq_of_lt (by omega), hheld] at hs
        simp only [List.getD_eq_getElem?_getD] at hs
        exact hs
      · subst hjm
        rw [List.getElem?_set_self (by rw [hlen]; omega),
          List.getElem?_append_right (le_refl _), Nat.sub_self]
        simp
  · -- buffer full: the oldest entry is evicted
    have hnm : n ≤ os.length := le_of_not_lt hcase
    have hc : min os.length n = n := Nat.min_eq_right hnm
    have hfull : w.count = w.buf.length := by rw [hcount, hlen, hc]
    have hmn : os.length - n < os.length := by omega
    have hmodeq : (os.length - n) % n = os.length % n := by
      conv_rhs => rw [← Nat.sub_add_cancel hnm]
      rw [Nat.add_mod_right]
    -- the slot at the cursor holds the oldest held outcome
    have hold : w.buf.getD w.pos failure = os.getD (os.length - n) failure := by
      have h0 := hslots 0 (by omega)
      rw [hc, Nat.add_zero, hmodeq, ← hpos] at h0
      rw [h0]
      simp only [heldSpec, hc, List.getD_eq_getElem?_getD, List.getElem?_drop,
        Nat.add_zero]
    have hdropcons : os.drop (os.length - n) =
        os.getD (os.length - n) failure :: os.drop (os.length - n + 1) := by
      rw [List.drop_eq_getElem_cons hmn, List.getD_eq_getElem?_getD,
        List.getElem?_eq_getElem hmn]
      rfl
    have hfailsplit : w.fails =
        (if os.getD (os.length - n) failure = (failure : outcome) then 1 else 0) +
          failCount (os.drop (os.length - n + 1)) := by
      rw [hfails]
      simp only [heldSpec, hc]
      rw [hdropcons]
      rfl
    have hc' : min (os.length + 1) n = n := Nat.min_eq_right (by omega)
    have hheld' : heldSpec n (os ++ [o]) =
        os.drop (os.length - n + 1) ++ [o] := by
      rw [heldSpec, List.length_append, List.length_singleton, hc']
      rw [List.drop_append_of_le_length (by omega)]
      congr 2
      omega
    have hrec : w.record o =
        { buf := w.buf.set (os.length % n) o,
          pos := (os.length % n + 1) % n, count := w.count,
          fails :=
            if o = (failure : outcome) then
              (if os.getD (os.length - n) failure = (failure : outcome) then
                  w.fails - 1 else w.fails) + 1
            else
              (if os.getD (os.length - n) failure = (failure : outcome) then
                  w.fails - 1 else w.fails) } := by
      have hold' : w.buf.getD (os.length % n) failure
          = os.getD (os.length - n) failure := by
        rw [← hpos]; exact hold
      simp only [slidingWindow.record]
      rw [if_pos hfull, hpos, hold']
      by_cases holdv : os[os.length - n]?.getD failure = (failure : outcome) <;>
        by_cases ho : o = (failure : outcome) <;>
          simp [holdv, ho, hlen, hpos]
    rw [hrec]
    refine ⟨by simp [hlen], ?_,
      by simp only [hcount, hc, List.length_append, List.length_singleton, hc'], ?_, ?_⟩
    · simp [Nat.mod_add_mod]
    · rw [hheld', failCount_append, hfailsplit]
      by_cases holdv : os[os.length - n]?.getD failure = (failure : outcome) <;>
        by_cases ho : o = (failure : outcome) <;>
          simp [holdv, ho, failCount]
    · intro j hj
      rw [List.length_append, List.length_singleton, hc'] at hj
      rw [hheld']
      simp only [List.length_append, List.length_singleton, hc',
        List.getD_eq_getElem?_getD]
      have hlendrop : (os.drop (os.length - n + 1)).length = n - 1 := by
        rw [List.length_drop]; omega
      rcases Nat.lt_or_ge j (n - 1) with hjlt | hjge
      · -- an already-held slot, untouched by this write
        have hidx : (os.length + 1 - n + j) % n ≠ os.length % n := by
          intro heq
          have hle : os.length + 1 - n + j ≤ os.length := by omega
          have hdvd : n ∣ os.length - (os.length + 1 - n + j) :=
            (Nat.modEq_iff_dvd' hle).mp heq
          have hpos2 : 0 < os.length - (os.length + 1 - n + j) := by omega
          have hlt2 : os.length - (os.length + 1 - n + j) < n := by omega
          have := Nat.le_of_dvd hpos2 hdvd
          omega
        rw [List.getElem?_set_ne (Ne.symm hidx),
          List.getElem?_append_left (by omega), List.getElem?_drop]
        have hs := hslots (j + 1) (by omega)
        rw [hc] at hs
        have hidx2 : os.length - n + (j + 1) = os.length + 1 - n + j := by omega
        rw [hidx2] at hs
        simp only [heldSpec, hc, List.getD_eq_getElem?_getD,
          List.getElem?_drop] at hs
        rw [hs]
        congr 2
        omega
      · -- the cursor slot, just overwritten with `o`
        have hjeq : j = n - 1 := by omega
        subst hjeq
        have hidx : (os.length + 1 - n + (n - 1)) % n = os.length % n := by
          congr 1
          omega
        rw [hidx, List.getElem?_set_self (by rw [hlen]; exact Nat.mod_lt _ hn),
          List.getElem?_append_right (by omega)]
        simp [hlendrop]

theorem windowRep_applyRecords (n : Nat) (hn : 0 < n) :
    ∀ (os pre : List outcome) (w : slidingWindow),
      windowRep n pre w → windowRep n (pre ++ os) (applyRecords w os)
  | [], _, _, h => by simpa [applyRecords] using h
  | o :: os, pre, w, h => by
      have h1 := windowRep_record n hn pre w o h
      have h2 := windowRep_applyRecords n hn os (pre ++ [o]) (w.record o) h1
      simpa [applyRecords, List.append_assoc] using h2

/-- C3. For every capacity `size ≥ 1` and every record history `os` played
against a fresh tracker: `total()` is `min(size, total_recorded)`,
`failure_rate()` is the failure count among the last
`min(size, total_recorded)` outcomes divided by that count (0 when nothing
was recorded), and `0 ≤ fails ≤ count ≤ capacity`. Instantiating `os` at
every prefix of a history gives the invariant after every operation. -/
theorem C3_tracker_failure_rate (size : Int) (hsize : 1 ≤ size)
    (os : List outcome) :
    (applyRecords (newSlidingWindow size) os).total = min os.length size.toNat ∧
    (os = [] → (applyRecords (newSlidingWindow size) os).failureRate = 0) ∧
    (os ≠ [] →
      (applyRecords (newSlidingWindow size) os).failureRate
        = (failCount (heldSpec size.toNat os) : ℚ)
            / (min os.length size.toNat : ℚ)) ∧
    (applyRecords (newSlidingWindow size) os).fails
      ≤ (applyRecords (newSlidingWindow size) os).count ∧
    (applyRecords (newSlidingWindow size) os).count ≤ size.toNat := by
  have hn : 0 < size.toNat := by omega
  have hrep := windowRep_applyRecords size.toNat hn os [] (newSlidingWindow size)
    (windowRep_new size hsize)
  rw [List.nil_append] at hrep
  obtain ⟨hlen, hpos, hcount, hfails, _⟩ := hrep
  have hheldlen : (heldSpec size.toNat os).length = min os.length size.toNat := by
    rw [heldSpec, List.length_drop]
    omega
  refine ⟨hcount, ?_, ?_, ?_, ?_⟩
  · intro h0
    subst h0
    simp only [slidingWindow.failureRate, hcount]
    simp
  · intro hne
    have hlpos : 0 < os.length := List.length_pos.mpr hne
    have hcne : (applyRecords (newSlidingWindow size) os).count ≠ 0 := by
      rw [hcount]; omega
    rw [slidingWindow.failureRate, if_neg hcne, hfails, hcount]
    rw [Nat.cast_min]
  · rw [hfails, hcount, ← hheldlen]
    exact failCount_le_length _
  · rw [hcount]; omega

theorem C3_tracker_failure_rate_witness :
    (applyRecords (newSlidingWindow 3) [failure, failure, success, success]).total
        = min ([failure, failure, success, success] : List outcome).length (Int.toNat 3) ∧
    (([failure, failure, success, success] : List outcome) = [] →
      (applyRecords (newSlidingWindow 3) [failure, failure, success, success]).failureRate = 0) ∧
    (([failure, failure, success, success] : List outcome) ≠ [] →
      (applyRecords (newSlidingWindow 3) [failure, failure, success, success]).failureRate
        = (failCount (heldSpec (Int.toNat 3) [failure, failure, success, success]) : ℚ)
            / (min ([failure, failure, success, success] : List outcome).length (Int.toNat 3) : ℚ)) ∧
    (applyRecords (newSlidingWindow 3) [failure, failure, success, success]).fails
      ≤ (applyRecords (newSlidingWindow 3) [failure, failure, success, success]).count ∧
    (applyRecords (newSlidingWindow 3) [failure, failure, success, success]).count
      ≤ Int.toNat 3 :=
  C3_tracker_failure_rate 3 (by norm_num) [failure, failure, success, success]

/-- C8. No self-transition ever fires: for each single operation —
admission check (`beforeCall`), outcome recording (`afterCall`), state
query (`State`) — if the state after the operation equals the state
before, then no `OnStateChange` event fires and `lastStateChange` is
unchanged. -/
theorem C8_no_self_transition (cb : CircuitBreaker) (t : Int)
    (err : Option GoError) :
    ((cb.beforeCall t).1.state = cb.state →
      (cb.beforeCall t).2.2 = [] ∧
      (cb.beforeCall t).1.lastStateChange = cb.lastStateChange) ∧
    ((cb.afterCall t err).1.state = cb.state →
      (cb.afterCall t err).2 = [] ∧
      (cb.afterCall t err).1.lastStateChange = cb.lastStateChange) ∧
    ((cb.State t).1.state = cb.state →
      (cb.State t).2.2 = [] ∧
      (cb.State t).1.lastStateChange = cb.lastStateChange) := by
  refine ⟨?_, ?_, ?_⟩
  · cases hs : cb.state <;>
      simp [CircuitBreaker.beforeCall, CircuitBreaker.setState, hs] <;>
      split_ifs <;> simp_all
  · cases hs : cb.state <;>
      simp [CircuitBreaker.afterCall, CircuitBreaker.setState, hs] <;>
      split_ifs <;> simp_all
  · simp only [CircuitBreaker.State, CircuitBreaker.setState]
    split_ifs with h1 h2 <;> simp_all

/-- C9. While the breaker is Open or HalfOpen, no operation appends to
the outcome tracker: admission check and state query never touch the
window; outcome recording leaves the window (hence the reported windowed
failure rate) unchanged unless it transitions back to Closed, and that
transition resets the tracker to empty, with failure rate 0. -/
theorem C9_window_frozen_while_tripped (cb : CircuitBreaker) (t : Int)
    (err : Option GoError)
    (h : cb.state = State.StateOpen ∨ cb.state = State.StateHalfOpen) :
    (cb.beforeCall t).1.window = cb.window ∧
    (cb.State t).1.window = cb.window ∧
    ((cb.afterCall t err).1.state ≠ State.StateClosed →
      (cb.afterCall t err).1.window = cb.window ∧
      (cb.afterCall t err).1.Metrics.WindowFailureRate
        = cb.Metrics.WindowFailureRate) ∧
    ((cb.afterCall t err).1.state = State.StateClosed →
      (cb.afterCall t err).1.window = cb.window.reset ∧
      (cb.afterCall t err).1.Metrics.WindowFailureRate = 0) := by
  refine ⟨?_, ?_, ?_, ?_⟩
  · rcases h with hs | hs <;>
      simp [CircuitBreaker.beforeCall, CircuitBreaker.setState, hs] <;>
      split_ifs <;> simp
  · simp only [CircuitBreaker.State, CircuitBreaker.setState]
    split_ifs <;> simp
  · rcases h with hs | hs <;>
      simp [CircuitBreaker.afterCall, CircuitBreaker.setState,
        CircuitBreaker.Metrics, hs] <;>
      split_ifs <;> simp_all
  · rcases h with hs | hs <;>
      simp [CircuitBreaker.afterCall, CircuitBreaker.setState,
        CircuitBreaker.Metrics, hs] <;>
      split_ifs <;>
        simp_all [slidingWindow.reset, slidingWindow.failureRate]

/-- C5 counterexample: construction with a malformed failure-rate
threshold (3/2, outside (0,1]) does not fail: `New` — which, like the
source's `New`, has no failure outcome at all — accepts it and carries the
out-of-range threshold into a working Closed breaker, unclamped. -/
theorem C5_counterexample :
    (New { Name := "x", WindowSize := 10, FailureThreshold := 3/2,
           MinRequests := 5, RecoveryTimeout := 30, ProbeCount := 3,
           Fallback := none } 0).cfg.FailureThreshold = 3/2 ∧
    (New { Name := "x", WindowSize := 10, FailureThreshold := 3/2,
           MinRequests := 5, RecoveryTimeout := 30, ProbeCount := 3,
           Fallback := none } 0).state = State.StateClosed := by
  constructor <;> norm_num [New, Config.withDefaults]

/-- C5 (amended). Construction never fails: `New` applies exactly the
documented default substitutions — each non-positive numeric field is
replaced by its stated default — keeps every other supplied value (valid
or not, e.g. a threshold above 1) unchanged without error or clamping,
and returns a Closed breaker. -/
theorem C5_construction_defaults_only (cfg : Config) (t0 : Int) :
    (New cfg t0).cfg.WindowSize
      = (if cfg.WindowSize ≤ 0 then 20 else cfg.WindowSize) ∧
    (New cfg t0).cfg.FailureThreshold
      = (if cfg.FailureThreshold ≤ 0 then 1/2 else cfg.FailureThreshold) ∧
    (New cfg t0).cfg.MinRequests
      = (if cfg.MinRequests ≤ 0 then 5 else cfg.MinRequests) ∧
    (New cfg t0).cfg.RecoveryTimeout
      = (if cfg.RecoveryTimeout ≤ 0 then 30 else cfg.RecoveryTimeout) ∧
    (New cfg t0).cfg.ProbeCount
      = (if cfg.ProbeCount ≤ 0 then 3 else cfg.ProbeCount) ∧
    (New cfg t0).cfg.Name = cfg.Name ∧
    (New cfg t0).cfg.Fallback = cfg.Fallback ∧
    (New cfg t0).state = State.StateClosed := by
  simp only [New, Config.withDefaults]
  split_ifs <;> simp_all

/-- The admission check never touches the window, the lifetime counters,
the probe counter or the configuration. -/
theorem beforeCall_frame (cb : CircuitBreaker) (t : Int) :
    (cb.beforeCall t).1.window = cb.window ∧
    (cb.beforeCall t).1.totalRequests = cb.totalRequests ∧
    (cb.beforeCall t).1.totalSuccesses = cb.totalSuccesses ∧
    (cb.beforeCall t).1.totalFailures = cb.totalFailures ∧
    (cb.beforeCall t).1.probeSuccesses = cb.probeSuccesses ∧
    (cb.beforeCall t).1.cfg = cb.cfg := by
  cases hs : cb.state <;>
    simp [CircuitBreaker.beforeCall, CircuitBreaker.setState, hs] <;>
    split_ifs <;> simp

/-- C4. An admitted call whose operation fails while the caller's own
cancellation signal is set skips the recording phase entirely: `Execute`
returns exactly the post-admission breaker — window, success and failure
counters as the admission check left them, which is as they were — with
the operation's result and error handed back unchanged; and 10 such calls
on a fresh breaker leave the windowed failure rate 0 and the state
Closed. -/
theorem C4_cancellation_excluded (cb : CircuitBreaker) (t : Int)
    (fn : Unit → Option Int × Option GoError) (r : Option Int) (e : GoError)
    (hadm : (({ cb with totalRequests := cb.totalRequests + 1 } :
        CircuitBreaker).beforeCall t).2.1 = none)
    (hfn : fn () = (r, some e)) :
    (cb.Execute t true fn
      = ((({ cb with totalRequests := cb.totalRequests + 1 } :
            CircuitBreaker).beforeCall t).1,
         (r, some e),
         (({ cb with totalRequests := cb.totalRequests + 1 } :
            CircuitBreaker).beforeCall t).2.2) ∧
     (cb.Execute t true fn).1.window = cb.window ∧
     (cb.Execute t true fn).1.totalSuccesses = cb.totalSuccesses ∧
     (cb.Execute t true fn).1.totalFailures = cb.totalFailures ∧
     (cb.Execute t true fn).1.totalRequests = cb.totalRequests + 1) ∧
    ((canceledCall^[10] (New cfg0 0)).Metrics.WindowFailureRate = 0 ∧
     (canceledCall^[10] (New cfg0 0)).Metrics.CurrentState = State.StateClosed ∧
     (canceledCall^[10] (New cfg0 0)).Metrics.TotalSuccesses = 0 ∧
     (canceledCall^[10] (New cfg0 0)).Metrics.TotalFailures = 0) := by
  have hmain : cb.Execute t true fn
      = ((({ cb with totalRequests := cb.totalRequests + 1 } :
            CircuitBreaker).beforeCall t).1,
         (r, some e),
         (({ cb with totalRequests := cb.totalRequests + 1 } :
            CircuitBreaker).beforeCall t).2.2) := by
    rw [CircuitBreaker.Execute]
    rcases hbc : ({ cb with totalRequests := cb.totalRequests + 1 } :
        CircuitBreaker).beforeCall t with ⟨cbA, oe, evs⟩
    rw [hbc] at hadm
    simp only at hadm
    subst hadm
    simp [hfn]
  have hframe := beforeCall_frame
    ({ cb with totalRequests := cb.totalRequests + 1 }) t
  refine ⟨⟨hmain, ?_, ?_, ?_, ?_⟩, ?_⟩
  · rw [hmain]; exact hframe.1
  · rw [hmain]; exact hframe.2.2.1
  · rw [hmain]; exact hframe.2.2.2.1
  · rw [hmain]; exact hframe.2.1
  · refine ⟨rfl, rfl, rfl, rfl⟩

/-- The outcome-recording phase never touches the lifetime counters. -/
theorem afterCall_frame (cb : CircuitBreaker) (t : Int) (err : Option GoError) :
    (cb.afterCall t err).1.totalRequests = cb.totalRequests ∧
    (cb.afterCall t err).1.totalSuccesses = cb.totalSuccesses ∧
    (cb.afterCall t err).1.totalFailures = cb.totalFailures := by
  cases hs : cb.state <;>
    simp [CircuitBreaker.afterCall, CircuitBreaker.setState, hs] <;>
    split_ifs <;> simp

/-- Counter accounting of one `Execute` call: the request counter gains 1,
and the success/failure sum gains 1 unless the call was
cancellation-excluded. -/
theorem Execute_counters (cb : CircuitBreaker) (c : Call) :
    (cb.Execute c.t c.canceled c.fn).1.totalRequests = cb.totalRequests + 1 ∧
    (cb.Execute c.t c.canceled c.fn).1.totalSuccesses
        + (cb.Execute c.t c.canceled c.fn).1.totalFailures
      = cb.totalSuccesses + cb.totalFailures
        + (if excludedCall cb c then 0 else 1) := by
  rw [CircuitBreaker.Execute]
  have hframe := beforeCall_frame
    ({ cb with totalRequests := cb.totalRequests + 1 }) c.t
  rcases hbc : ({ cb with totalRequests := cb.totalRequests + 1 } :
      CircuitBreaker).beforeCall c.t with ⟨cbA, oe, evs⟩
  rw [hbc] at hframe
  simp only at hframe
  obtain ⟨-, hreq, hsuc, hfail, -, -⟩ := hframe
  cases oe with
  | some e =>
      have hexc : excludedCall cb c = false := by
        simp [excludedCall, hbc]
      cases hfb : cbA.cfg.Fallback <;>
        simp [hfb, hexc, hreq, hsuc, hfail] <;> omega
  | none =>
      rcases hr : c.fn () with ⟨res, oerr⟩
      by_cases hskip : oerr.isSome ∧ c.canceled
      · have hexc : excludedCall cb c = true := by
          simp [excludedCall, hbc, hr, hskip.1, hskip.2]
        simp [hr, hskip, hexc, hreq, hsuc, hfail]
      · have hexc : excludedCall cb c = false := by
          simp only [excludedCall, hbc, hr]
          rcases Decidable.not_and_iff_or_not.mp hskip with h1 | h1 <;>
            simp [h1]
        have hac := afterCall_frame cbA c.t oerr
        rcases hoerr : oerr with _ | e <;>
          simp [hr, hoerr, hskip, hexc, hreq, hsuc, hfail, hac.2.1, hac.2.2,
            hac.1] <;>
          simp_all <;> omega

theorem runCount_invariant : ∀ (cs : List Call) (cb : CircuitBreaker),
    (runCount cb cs).1.totalRequests = cb.totalRequests + cs.length ∧
    (runCount cb cs).1.totalSuccesses + (runCount cb cs).1.totalFailures
        + (runCount cb cs).2
      = cb.totalSuccesses + cb.totalFailures + cs.length
  | [], cb => by simp [runCount]
  | c :: cs, cb => by
      have h1 := Execute_counters cb c
      have ih := runCount_invariant cs (cb.Execute c.t c.canceled c.fn).1
      simp only [runCount, List.length_cons]
      constructor
      · rw [ih.1, h1.1]; omega
      · have := ih.2
        by_cases hexc : excludedCall cb c <;>
          simp [hexc] at h1 ⊢ <;> omega

/-- C10. Over any call sequence against a fresh breaker:
`total_successes + total_failures + (number of cancellation-excluded
calls) = total_requests`; hence the sum never exceeds `total_requests`,
with strict inequality exactly when some call was cancellation-excluded;
every call increments `total_requests`; and a rejected call (breaker open,
timeout not elapsed) increments `total_failures` even when a fallback
substitutes the result. -/
theorem C10_lifetime_counters (cfg : Config) (t0 : Int) (cs : List Call) :
    (runCount (New cfg t0) cs).1.totalRequests = cs.length ∧
    (runCount (New cfg t0) cs).1.totalSuccesses
        + (runCount (New cfg t0) cs).1.totalFailures
        + (runCount (New cfg t0) cs).2
      = (runCount (New cfg t0) cs).1.totalRequests ∧
    (runCount (New cfg t0) cs).1.totalSuccesses
        + (runCount (New cfg t0) cs).1.totalFailures
      ≤ (runCount (New cfg t0) cs).1.totalRequests ∧
    ((runCount (New cfg t0) cs).1.totalSuccesses
        + (runCount (New cfg t0) cs).1.totalFailures
      < (runCount (New cfg t0) cs).1.totalRequests
        ↔ 0 < (runCount (New cfg t0) cs).2) ∧
    (∀ (cb : CircuitBreaker) (t : Int) (cc : Bool)
        (fn : Unit → Option Int × Option GoError),
      (({ cb with totalRequests := cb.totalRequests + 1 } :
          CircuitBreaker).beforeCall t).2.1.isSome →
      (cb.Execute t cc fn).1.totalFailures = cb.totalFailures + 1) := by
  have hinv := runCount_invariant cs (New cfg t0)
  have hz : (New cfg t0).totalRequests = 0 ∧ (New cfg t0).totalSuccesses = 0 ∧
      (New cfg t0).totalFailures = 0 := by simp [New]
  refine ⟨by rw [hinv.1, hz.1]; omega, by omega, by omega, by omega, ?_⟩
  intro cb t cc fn hrej
  rw [CircuitBreaker.Execute]
  have hframe := beforeCall_frame
    ({ cb with totalRequests := cb.totalRequests + 1 }) t
  rcases hbc : ({ cb with totalRequests := cb.totalRequests + 1 } :
      CircuitBreaker).beforeCall t with ⟨cbA, oe, evs⟩
  rw [hbc] at hframe hrej
  simp only at hframe hrej
  cases oe with
  | none => simp at hrej
  | some e =>
      cases hfb : cbA.cfg.Fallback <;> simp [hfb, hframe.2.2.2.1]

theorem Execute_closed_noTrip (cb : CircuitBreaker) (t : Int)
    (fn : Unit → Option Int × Option GoError) (r : Option Int) (e : GoError)
    (hst : cb.state = State.StateClosed) (hfn : fn () = (r, some e))
    (hcond : ¬ (cb.cfg.MinRequests ≤ ((cb.window.record failure).total : Int))) :
    cb.Execute t false fn =
      ({ cb with window := cb.window.record failure,
                 totalRequests := cb.totalRequests + 1,
                 totalFailures := cb.totalFailures + 1 },
       (r, some e), []) := by
  rw [CircuitBreaker.Execute]
  simp [CircuitBreaker.beforeCall, CircuitBreaker.afterCall, hst, hfn, hcond]

theorem Execute_closed_trip (cb : CircuitBreaker) (t : Int)
    (fn : Unit → Option Int × Option GoError) (r : Option Int) (e : GoError)
    (hst : cb.state = State.StateClosed) (hfn : fn () = (r, some e))
    (hcond : cb.cfg.MinRequests ≤ ((cb.window.record failure).total : Int) ∧
             cb.cfg.FailureThreshold ≤ (cb.window.record failure).failureRate) :
    cb.Execute t false fn =
      ({ cb with state := State.StateOpen, window := cb.window.record failure,
                 openedAt := t, lastStateChange := t,
                 totalRequests := cb.totalRequests + 1,
                 totalFailures := cb.totalFailures + 1 },
       (r, some e),
       [{ name := cb.cfg.Name, fromState := State.StateClosed,
          toState := State.StateOpen }]) := by
  rw [CircuitBreaker.Execute]
  simp [CircuitBreaker.beforeCall, CircuitBreaker.afterCall,
    CircuitBreaker.setState, hst, hfn, hcond.1, hcond.2]

theorem Execute_open_rejected (cb : CircuitBreaker) (t : Int) (cc : Bool)
    (fn : Unit → Option Int × Option GoError)
    (hst : cb.state = State.StateOpen)
    (htime : ¬ (cb.cfg.RecoveryTimeout ≤ t - cb.openedAt))
    (hfb : cb.cfg.Fallback = none) :
    cb.Execute t cc fn =
      ({ cb with totalRequests := cb.totalRequests + 1,
                 totalFailures := cb.totalFailures + 1 },
       (none, some GoError.circuitOpen), []) := by
  rw [CircuitBreaker.Execute]
  simp [CircuitBreaker.beforeCall, hst, htime, hfb]

theorem Execute_halfOpen_probeOk_continue (cb : CircuitBreaker) (t : Int)
    (fn : Unit → Option Int × Option GoError) (r : Option Int)
    (hst : cb.state = State.StateHalfOpen) (hfn : fn () = (r, none))
    (hcnt : ¬ (cb.cfg.ProbeCount ≤ cb.probeSuccesses + 1)) :
    cb.Execute t false fn =
      ({ cb with probeSuccesses := cb.probeSuccesses + 1,
                 totalRequests := cb.totalRequests + 1,
                 totalSuccesses := cb.totalSuccesses + 1 },
       (r, none), []) := by
  rw [CircuitBreaker.Execute]
  simp [CircuitBreaker.beforeCall, CircuitBreaker.afterCall, hst, hfn, hcnt]

theorem Execute_halfOpen_probeOk_close (cb : CircuitBreaker) (t : Int)
    (fn : Unit → Option Int × Option GoError) (r : Option Int)
    (hst : cb.state = State.StateHalfOpen) (hfn : fn () = (r, none))
    (hcnt : cb.cfg.ProbeCount ≤ cb.probeSuccesses + 1) :
    cb.Execute t false fn =
      ({ cb with state := State.StateClosed, window := cb.window.reset,
                 probeSuccesses := 0, lastStateChange := t,
                 totalRequests := cb.totalRequests + 1,
                 totalSuccesses := cb.totalSuccesses + 1 },
       (r, none),
       [{ name := cb.cfg.Name, fromState := State.StateHalfOpen,
          toState := State.StateClosed }]) := by
  rw [CircuitBreaker.Execute]
  simp [CircuitBreaker.beforeCall, CircuitBreaker.afterCall,
    CircuitBreaker.setState, hst, hfn, hcnt]

theorem Execute_halfOpen_probeFail (cb : CircuitBreaker) (t : Int)
    (fn : Unit → Option Int × Option GoError) (r : Option Int) (e : GoError)
    (hst : cb.state = State.StateHalfOpen) (hfn : fn () = (r, some e)) :
    cb.Execute t false fn =
      ({ cb with state := State.StateOpen, openedAt := t,
                 lastStateChange := t, probeSuccesses := 0,
                 totalRequests := cb.totalRequests + 1,
                 totalFailures := cb.totalFailures + 1 },
       (r, some e),
       [{ name := cb.cfg.Name, fromState := State.StateHalfOpen,
          toState := State.StateOpen }]) := by
  rw [CircuitBreaker.Execute]
  simp [CircuitBreaker.beforeCall, CircuitBreaker.afterCall,
    CircuitBreaker.setState, hst, hfn]

theorem cfgC1_withDefaults (T : Int) (hT : 0 < T) :
    (cfgC1 T).withDefaults = cfgC1 T := by
  have h2 : ¬ ((1:ℚ)/2 ≤ 0) := by norm_num
  have hTn : ¬ (T ≤ 0) := by omega
  simp [Config.withDefaults, cfgC1, h2, hTn]

theorem failStep_closed_noTrip (cb : CircuitBreaker)
    (hst : cb.state = State.StateClosed)
    (hcond : ¬ (cb.cfg.MinRequests ≤ ((cb.window.record failure).total : Int))) :
    failStep cb =
      { cb with window := cb.window.record failure,
                totalRequests := cb.totalRequests + 1,
                totalFailures := cb.totalFailures + 1 } := by
  rw [failStep, Execute_closed_noTrip cb 0 _ none (GoError.opError 1) hst rfl
    hcond]

theorem failStep_closed_trip (cb : CircuitBreaker)
    (hst : cb.state = State.StateClosed)
    (hcond : cb.cfg.MinRequests ≤ ((cb.window.record failure).total : Int) ∧
             cb.cfg.FailureThreshold ≤ (cb.window.record failure).failureRate) :
    failStep cb =
      { cb with state := State.StateOpen, window := cb.window.record failure,
                openedAt := 0, lastStateChange := 0,
                totalRequests := cb.totalRequests + 1,
                totalFailures := cb.totalFailures + 1 } := by
  rw [failStep, Execute_closed_trip cb 0 _ none (GoError.opError 1) hst rfl
    hcond]

/-- After 5 consecutive failures from fresh, the breaker is the literal
Open state below. -/
theorem cb5_eq (T : Int) (hT : 0 < T) :
    failStep^[5] (New (cfgC1 T) 0) =
      { cfg := cfgC1 T, state := State.StateOpen,
        window := { buf := List.replicate 10 failure, pos := 5, count := 5,
                    fails := 5 },
        openedAt := 0, lastStateChange := 0, probeSuccesses := 0,
        totalRequests := 5, totalSuccesses := 0, totalFailures := 5 } := by
  have hstart : New (cfgC1 T) 0 =
      { cfg := cfgC1 T, state := State.StateClosed,
        window := { buf := List.replicate 10 failure, pos := 0, count := 0,
                    fails := 0 },
        openedAt := 0, lastStateChange := 0, probeSuccesses := 0,
        totalRequests := 0, totalSuccesses := 0, totalFailures := 0 } := by
    rw [New, cfgC1_withDefaults T hT]
    have hw : newSlidingWindow (cfgC1 T).WindowSize =
        { buf := List.replicate 10 failure, pos := 0, count := 0,
          fails := 0 } := by
      simp only [cfgC1]
      decide
    rw [hw]
  have s1 : failStep
      { cfg := cfgC1 T, state := State.StateClosed,
        window := { buf := List.replicate 10 failure, pos := 0, count := 0,
                    fails := 0 },
        openedAt := 0, lastStateChange := 0, probeSuccesses := 0,
        totalRequests := 0, totalSuccesses := 0, totalFailures := 0 } =
      { cfg := cfgC1 T, state := State.StateClosed,
        window := { buf := List.replicate 10 failure, pos := 1, count := 1,
                    fails := 1 },
        openedAt := 0, lastStateChange := 0, probeSuccesses := 0,
        totalRequests := 1, totalSuccesses := 0, totalFailures := 1 } := by
    rw [failStep_closed_noTrip _ rfl ?_]
    · rfl
    · show ¬ ((5:Int) ≤ ((1:Nat) : Int))
      decide
  have s2 : failStep
      { cfg := cfgC1 T, state := State.StateClosed,
        window := { buf := List.replicate 10 failure, pos := 1, count := 1,
                    fails := 1 },
        openedAt := 0, lastStateChange := 0, probeSuccesses := 0,
        totalRequests := 1, totalSuccesses := 0, totalFailures := 1 } =
      { cfg := cfgC1 T, state := State.StateClosed,
        window := { buf := List.replicate 10 failure, pos := 2, count := 2,
                    fails := 2 },
        openedAt := 0, lastStateChange := 0, probeSuccesses := 0,
        totalRequests := 2, totalSuccesses := 0, totalFailures := 2 } := by
    rw [failStep_closed_noTrip _ rfl ?_]
    · rfl
    · show ¬ ((5:Int) ≤ ((2:Nat) : Int))
      decide
  have s3 : failStep
      { cfg := cfgC1 T, state := State.StateClosed,
        window := { buf := List.replicate 10 failure, pos := 2, count := 2,
                    fails := 2 },
        openedAt := 0, lastStateChange := 0, probeSuccesses := 0,
        totalRequests := 2, totalSuccesses := 0, totalFailures := 2 } =
      { cfg := cfgC1 T, state := State.StateClosed,
        window := { buf := List.replicate 10 failure, pos := 3, count := 3,
                    fails := 3 },
        openedAt := 0, lastStateChange := 0, probeSuccesses := 0,
        totalRequests := 3, totalSuccesses := 0, totalFailures := 3 } := by
    rw [failStep_closed_noTrip _ rfl ?_]
    · rfl
    · show ¬ ((5:Int) ≤ ((3:Nat) : Int))
      decide
  have s4 : failStep
      { cfg := cfgC1 T, state := State.StateClosed,
        window := { buf := List.replicate 10 failure, pos := 3, count := 3,
                    fails := 3 },
        openedAt := 0, lastStateChange := 0, probeSuccesses := 0,
        totalRequests := 3, totalSuccesses := 0, totalFailures := 3 } =
      { cfg := cfgC1 T, state := State.StateClosed,
        window := { buf := List.replicate 10 failure, pos := 4, count := 4,
                    fails := 4 },
        openedAt := 0, lastStateChange := 0, probeSuccesses := 0,
        totalRequests := 4, totalSuccesses := 0, totalFailures := 4 } := by
    rw [failStep_closed_noTrip _ rfl ?_]
    · rfl
    · show ¬ ((5:Int) ≤ ((4:Nat) : Int))
      decide
  have hw5 :
      ({ buf := List.replicate 10 failure, pos := 4, count := 4,
         fails := 4 } : slidingWindow).record failure =
        { buf := List.replicate 10 failure, pos := 5, count := 5,
          fails := 5 } := by decide
  have s5 : failStep
      { cfg := cfgC1 T, state := State.StateClosed,
        window := { buf := List.replicate 10 failure, pos := 4, count := 4,
                    fails := 4 },
        openedAt := 0, lastStateChange := 0, probeSuccesses := 0,
        totalRequests := 4, totalSuccesses := 0, totalFailures := 4 } =
      { cfg := cfgC1 T, state := State.StateOpen,
        window := { buf := List.replicate 10 failure, pos := 5, count := 5,
                    fails := 5 },
        openedAt := 0, lastStateChange := 0, probeSuccesses := 0,
        totalRequests := 5, totalSuccesses := 0, totalFailures := 5 } := by
    rw [failStep_closed_trip _ rfl ?_]
    · rfl
    · constructor
      · show (5:Int) ≤ ((5:Nat) : Int)
        decide
      · show (1:ℚ)/2 ≤
          ({ buf := List.replicate 10 failure, pos := 5, count := 5,
             fails := 5 } : slidingWindow).failureRate
        rw [slidingWindow.failureRate]
        norm_num
  simp only [Function.iterate_succ, Function.iterate_zero,
    Function.comp_apply, id_eq, hstart]
  rw [s1, s2, s3, s4, s5]

/-- C1. With `window=10, threshold=0.5, min_requests=5`, 5 consecutive
failures from fresh trip the breaker to Open (opened at time 0); any call
before the recovery timeout elapses is rejected with `ErrCircuitOpen`
without invoking the operation (the result is the same for every
operation); and at the first call or state query at or after the timeout,
the call is admitted as a probe and the observed state is HalfOpen. -/
theorem C1_trip_reject_recover (T t : Int) (hT : 0 < T) :
    (failStep^[5] (New (cfgC1 T) 0)).state = State.StateOpen ∧
    (failStep^[5] (New (cfgC1 T) 0)).openedAt = 0 ∧
    (t - 0 < T →
      ∀ (cc : Bool) (fn : Unit → Option Int × Option GoError),
        (failStep^[5] (New (cfgC1 T) 0)).Execute t cc fn =
          ({ failStep^[5] (New (cfgC1 T) 0) with
              totalRequests := (failStep^[5] (New (cfgC1 T) 0)).totalRequests + 1,
              totalFailures := (failStep^[5] (New (cfgC1 T) 0)).totalFailures + 1 },
           (none, some GoError.circuitOpen), [])) ∧
    (T ≤ t - 0 →
      ((failStep^[5] (New (cfgC1 T) 0)).beforeCall t).2.1 = none ∧
      ((failStep^[5] (New (cfgC1 T) 0)).beforeCall t).1.state
        = State.StateHalfOpen ∧
      ((failStep^[5] (New (cfgC1 T) 0)).State t).2.1 = State.StateHalfOpen) := by
  have h5 := cb5_eq T hT
  rw [h5]
  refine ⟨rfl, rfl, ?_, ?_⟩
  · intro ht cc fn
    exact Execute_open_rejected _ t cc fn rfl
      (by simp only [cfgC1]; omega) rfl
  · intro ht
    have htime : (cfgC1 T).RecoveryTimeout ≤ t := by
      simp only [cfgC1]; omega
    refine ⟨?_, ?_, ?_⟩
    · simp [CircuitBreaker.beforeCall, CircuitBreaker.setState, htime]
    · simp [CircuitBreaker.beforeCall, CircuitBreaker.setState, htime]
    · simp [CircuitBreaker.State, CircuitBreaker.setState, htime]

theorem C1_trip_reject_recover_witness :
    ((failStep^[5] (New (cfgC1 30) 0)).state = State.StateOpen ∧
      ((5:Int) - 0 < 30 →
        ∀ (cc : Bool) (fn : Unit → Option Int × Option GoError),
          (failStep^[5] (New (cfgC1 30) 0)).Execute 5 cc fn =
            ({ failStep^[5] (New (cfgC1 30) 0) with
                totalRequests :=
                  (failStep^[5] (New (cfgC1 30) 0)).totalRequests + 1,
                totalFailures :=
                  (failStep^[5] (New (cfgC1 30) 0)).totalFailures + 1 },
             (none, some GoError.circuitOpen), []))) ∧
    ((30:Int) ≤ 42 - 0 →
      ((failStep^[5] (New (cfgC1 30) 0)).beforeCall 42).2.1 = none ∧
      ((failStep^[5] (New (cfgC1 30) 0)).beforeCall 42).1.state
        = State.StateHalfOpen ∧
      ((failStep^[5] (New (cfgC1 30) 0)).State 42).2.1
        = State.StateHalfOpen) :=
  ⟨⟨(C1_trip_reject_recover 30 5 (by norm_num)).1,
    (C1_trip_reject_recover 30 5 (by norm_num)).2.2.1⟩,
   (C1_trip_reject_recover 30 42 (by norm_num)).2.2.2⟩

theorem record_count_le (w : slidingWindow) (o : outcome) :
    (w.record o).count ≤ w.count + 1 := by
  rw [slidingWindow.record]
  split_ifs <;> simp

/-- C2. From HalfOpen with `probe_count = 3` and probe counter 0: three
successful probes close the breaker and reset the tracker to empty
(total 0, failure rate 0); four subsequent failures (one below
`min_requests = 5`) leave the state Closed; and a single probe failure
from HalfOpen re-opens the breaker, resetting the probe counter and
setting `opened_at` to the current time. -/
theorem C2_halfopen_probes (cb : CircuitBreaker) (t1 t2 t3 : Int)
    (hs : cb.state = State.StateHalfOpen) (hp : cb.probeSuccesses = 0)
    (hpc : cb.cfg.ProbeCount = 3) (hmr : cb.cfg.MinRequests = 5) :
    (okCall t3 (okCall t2 (okCall t1 cb)) =
      { cb with state := State.StateClosed, window := cb.window.reset,
                probeSuccesses := 0, lastStateChange := t3,
                totalRequests := cb.totalRequests + 1 + 1 + 1,
                totalSuccesses := cb.totalSuccesses + 1 + 1 + 1 }) ∧
    (okCall t3 (okCall t2 (okCall t1 cb))).window.total = 0 ∧
    (okCall t3 (okCall t2 (okCall t1 cb))).window.failureRate = 0 ∧
    (∀ u1 u2 u3 u4 : Int,
      (errCall u4 (errCall u3 (errCall u2 (errCall u1
        (okCall t3 (okCall t2 (okCall t1 cb))))))).state
        = State.StateClosed) ∧
    (∀ (cb' : CircuitBreaker) (u : Int) (r : Option Int) (e : GoError)
        (fn : Unit → Option Int × Option GoError),
      cb'.state = State.StateHalfOpen → fn () = (r, some e) →
      cb'.Execute u false fn =
        ({ cb' with state := State.StateOpen, openedAt := u,
                    lastStateChange := u, probeSuccesses := 0,
                    totalRequests := cb'.totalRequests + 1,
                    totalFailures := cb'.totalFailures + 1 },
         (r, some e),
         [{ name := cb'.cfg.Name, fromState := State.StateHalfOpen,
            toState := State.StateOpen }])) := by
  have h1 : okCall t1 cb =
      { cb with probeSuccesses := cb.probeSuccesses + 1,
                totalRequests := cb.totalRequests + 1,
                totalSuccesses := cb.totalSuccesses + 1 } := by
    rw [okCall, Execute_halfOpen_probeOk_continue cb t1 _ (some 0) hs rfl ?_]
    show ¬ (cb.cfg.ProbeCount ≤ cb.probeSuccesses + 1)
    rw [hpc, hp]
    decide
  have h2 : okCall t2 (okCall t1 cb) =
      { cb with probeSuccesses := cb.probeSuccesses + 1 + 1,
                totalRequests := cb.totalRequests + 1 + 1,
                totalSuccesses := cb.totalSuccesses + 1 + 1 } := by
    rw [h1, okCall,
      Execute_halfOpen_probeOk_continue _ t2 _ (some 0) ?_ rfl ?_]
    · show cb.state = State.StateHalfOpen
      exact hs
    · show ¬ (cb.cfg.ProbeCount ≤ cb.probeSuccesses + 1 + 1)
      rw [hpc, hp]
      decide
  have h3 : okCall t3 (okCall t2 (okCall t1 cb)) =
      { cb with state := State.StateClosed, window := cb.window.reset,
                probeSuccesses := 0, lastStateChange := t3,
                totalRequests := cb.totalRequests + 1 + 1 + 1,
                totalSuccesses := cb.totalSuccesses + 1 + 1 + 1 } := by
    rw [h2, okCall,
      Execute_halfOpen_probeOk_close _ t3 _ (some 0) ?_ rfl ?_]
    · show cb.state = State.StateHalfOpen
      exact hs
    · show cb.cfg.ProbeCount ≤ cb.probeSuccesses + 1 + 1 + 1
      rw [hpc, hp]
      decide
  have hb0 : (cb.window.reset).count = 0 := rfl
  refine ⟨h3, by rw [h3]; rfl, by rw [h3]; rfl, ?_, ?_⟩
  · intro u1 u2 u3 u4
    have hb1 := record_count_le cb.window.reset failure
    have hb2 := record_count_le (cb.window.reset.record failure) failure
    have hb3 := record_count_le
      ((cb.window.reset.record failure).record failure) failure
    have hb4 := record_count_le
      (((cb.window.reset.record failure).record failure).record failure)
      failure
    have e1 : errCall u1 (okCall t3 (okCall t2 (okCall t1 cb))) =
        { cb with state := State.StateClosed,
                  window := cb.window.reset.record failure,
                  probeSuccesses := 0, lastStateChange := t3,
                  totalRequests := cb.totalRequests + 1 + 1 + 1 + 1,
                  totalSuccesses := cb.totalSuccesses + 1 + 1 + 1,
                  totalFailures := cb.totalFailures + 1 } := by
      rw [h3, errCall,
        Execute_closed_noTrip _ u1 _ none (GoError.opError 1) rfl rfl ?_]
      show ¬ (cb.cfg.MinRequests ≤
        ((cb.window.reset.record failure).count : Int))
      rw [hmr]
      intro hcon
      omega
    have e2 : errCall u2 (errCall u1 (okCall t3 (okCall t2 (okCall t1 cb)))) =
        { cb with state := State.StateClosed,
                  window := (cb.window.reset.record failure).record failure,
                  probeSuccesses := 0, lastStateChange := t3,
                  totalRequests := cb.totalRequests + 1 + 1 + 1 + 1 + 1,
                  totalSuccesses := cb.totalSuccesses + 1 + 1 + 1,
                  totalFailures := cb.totalFailures + 1 + 1 } := by
      rw [e1, errCall,
        Execute_closed_noTrip _ u2 _ none (GoError.opError 1) rfl rfl ?_]
      show ¬ (cb.cfg.MinRequests ≤
        (((cb.window.reset.record failure).record failure).count : Int))
      rw [hmr]
      intro hcon
      omega
    have e3 : errCall u3 (errCall u2 (errCall u1
        (okCall t3 (okCall t2 (okCall t1 cb))))) =
        { cb with state := State.StateClosed,
                  window := ((cb.window.reset.record failure).record
                    failure).record failure,
                  probeSuccesses := 0, lastStateChange := t3,
                  totalRequests := cb.totalRequests + 1 + 1 + 1 + 1 + 1 + 1,
                  totalSuccesses := cb.totalSuccesses + 1 + 1 + 1,
                  totalFailures := cb.totalFailures + 1 + 1 + 1 } := by
      rw [e2, errCall,
        Execute_closed_noTrip _ u3 _ none (GoError.opError 1) rfl rfl ?_]
      show ¬ (cb.cfg.MinRequests ≤
        ((((cb.window.reset.record failure).record failure).record
          failure).count : Int))
      rw [hmr]
      intro hcon
      omega
    have e4 : errCall u4 (errCall u3 (errCall u2 (errCall u1
        (okCall t3 (okCall t2 (okCall t1 cb)))))) =
        { cb with state := State.StateClosed,
                  window := (((cb.window.reset.record failure).record
                    failure).record failure).record failure,
                  probeSuccesses := 0, lastStateChange := t3,
                  totalRequests :=
                    cb.totalRequests + 1 + 1 + 1 + 1 + 1 + 1 + 1,
                  totalSuccesses := cb.totalSuccesses + 1 + 1 + 1,
                  totalFailures := cb.totalFailures + 1 + 1 + 1 + 1 } := by
      rw [e3, errCall,
        Execute_closed_noTrip _ u4 _ none (GoError.opError 1) rfl rfl ?_]
      show ¬ (cb.cfg.MinRequests ≤
        (((((cb.window.reset.record failure).record failure).record
          failure).record failure).count : Int))
      rw [hmr]
      intro hcon
      omega
    rw [e4]
  · intro cb' u r e fn hs' hfn
    exact Execute_halfOpen_probeFail cb' u fn r e hs' hfn

theorem applyOp_preserves (r : Registry) (op : RegOp) (nm : String)
    (cb : CircuitBreaker) (h : r.breakers.lookup nm = some cb) :
    (r.applyOp op).2.breakers.lookup nm = some cb := by
  have hstep : ∀ (name : String) (cb' : CircuitBreaker),
      r.breakers.lookup name = none →
      List.lookup nm ((name, cb') :: r.breakers) = some cb := by
    intro name cb' hl
    have hne : (nm == name) = false := by
      apply beq_eq_false_iff_ne.mpr
      intro he
      subst he
      rw [h] at hl
      cases hl
    rw [List.lookup, hne, h]
  cases op with
  | get name t =>
      rw [Registry.applyOp, Registry.Get]
      cases hl : r.breakers.lookup name with
      | some cb' => exact h
      | none => exact hstep name _ hl
  | getWith name cfg t =>
      rw [Registry.applyOp, Registry.GetWithConfig]
      cases hl : r.breakers.lookup name with
      | some cb' => exact h
      | none => exact hstep name _ hl

theorem applyOps_preserves (nm : String) (cb : CircuitBreaker) :
    ∀ (ops : List RegOp) (r : Registry),
      r.breakers.lookup nm = some cb →
      (r.applyOps ops).breakers.lookup nm = some cb
  | [], _, h => h
  | op :: ops, r, h => by
      show ((r.applyOp op).2.applyOps ops).breakers.lookup nm = some cb
      exact applyOps_preserves nm cb ops _ (applyOp_preserves r op nm cb h)

/-- C6. At most one breaker ever exists per name: a second lookup — with
or without an explicit configuration — returns the existing instance and
leaves the registry unchanged (the supplied configuration silently
ignored); on first access `Get` constructs the instance from the default
configuration (with `Name` set) and `GetWithConfig` constructs it from
the supplied configuration (with `Name` set), either one registers it,
and every later operation sequence still maps the name to that identical
instance, with any configuration supplied after first access ignored. -/
theorem C6_registry_idempotent (r : Registry) (nm : String) (cfg cfg2 : Config)
    (t t' : Int) :
    (∀ cb, r.breakers.lookup nm = some cb →
      r.Get nm t = (cb, r) ∧ r.GetWithConfig nm cfg t = (cb, r)) ∧
    (∀ cb, r.breakers.lookup nm = some cb → ∀ ops,
      (r.applyOps ops).breakers.lookup nm = some cb) ∧
    (r.breakers.lookup nm = none →
      (r.Get nm t).1 = New { r.defaultCfg with Name := nm } t ∧
      (r.Get nm t).2.breakers.lookup nm = some (r.Get nm t).1 ∧
      (∀ ops, ((r.Get nm t).2.applyOps ops).breakers.lookup nm
        = some (r.Get nm t).1) ∧
      (r.Get nm t).2.Get nm t' = ((r.Get nm t).1, (r.Get nm t).2) ∧
      (r.Get nm t).2.GetWithConfig nm cfg t'
        = ((r.Get nm t).1, (r.Get nm t).2)) ∧
    (r.breakers.lookup nm = none →
      (r.GetWithConfig nm cfg t).1 = New { cfg with Name := nm } t ∧
      (r.GetWithConfig nm cfg t).2.breakers.lookup nm
        = some (r.GetWithConfig nm cfg t).1 ∧
      (∀ ops, ((r.GetWithConfig nm cfg t).2.applyOps ops).breakers.lookup nm
        = some (r.GetWithConfig nm cfg t).1) ∧
      (r.GetWithConfig nm cfg t).2.Get nm t'
        = ((r.GetWithConfig nm cfg t).1, (r.GetWithConfig nm cfg t).2) ∧
      (r.GetWithConfig nm cfg t).2.GetWithConfig nm cfg2 t'
        = ((r.GetWithConfig nm cfg t).1, (r.GetWithConfig nm cfg t).2)) := by
  refine ⟨?_, ?_, ?_, ?_⟩
  · intro cb h
    constructor
    · rw [Registry.Get, h]
    · rw [Registry.GetWithConfig, h]
  · intro cb h ops
    exact applyOps_preserves nm cb ops r h
  · intro h
    have hget : r.Get nm t =
        (New { r.defaultCfg with Name := nm } t,
         { r with breakers :=
            (nm, New { r.defaultCfg with Name := nm } t) :: r.breakers }) := by
      rw [Registry.Get, h]
    rw [hget]
    have hlook : List.lookup nm
        ((nm, New { r.defaultCfg with Name := nm } t) :: r.breakers)
        = some (New { r.defaultCfg with Name := nm } t) := by
      rw [List.lookup, beq_self_eq_true]
    refine ⟨rfl, hlook, ?_, ?_, ?_⟩
    · intro ops
      exact applyOps_preserves nm _ ops _ hlook
    · rw [Registry.Get]
      simp only [hlook]
    · rw [Registry.GetWithConfig]
      simp only [hlook]
  · intro h
    have hget : r.GetWithConfig nm cfg t =
        (New { cfg with Name := nm } t,
         { r with breakers :=
            (nm, New { cfg with Name := nm } t) :: r.breakers }) := by
      rw [Registry.GetWithConfig, h]
    rw [hget]
    have hlook : List.lookup nm
        ((nm, New { cfg with Name := nm } t) :: r.breakers)
        = some (New { cfg with Name := nm } t) := by
      rw [List.lookup, beq_self_eq_true]
    refine ⟨rfl, hlook, ?_, ?_, ?_⟩
    · intro ops
      exact applyOps_preserves nm _ ops _ hlook
    · rw [Registry.Get]
      simp only [hlook]
    · rw [Registry.GetWithConfig]
      simp only [hlook]

theorem All_eq_breakers (r : Registry) : r.All = r.breakers := by
  rw [Registry.All]
  induction r.breakers with
  | nil => rfl
  | cons kv l ih => simp only [List.foldr_cons, ih]

/-- C7. `All` returns a copy of the current name-to-breaker associations:
the snapshot agrees with the registry contents at the moment it is taken;
applying any mutation to the snapshot value leaves the registry's mapping
as it was (value semantics of the embedded copy); and an insertion made
after the snapshot was taken appears in the registry but not in the
already-taken snapshot. -/
theorem C7_snapshot_independent (r : Registry) (newName : String) (t : Int)
    (f : List (String × CircuitBreaker) → List (String × CircuitBreaker)) :
    r.All = r.breakers ∧
    (∀ k, (f r.All, r).2.breakers.lookup k = r.breakers.lookup k) ∧
    (r.breakers.lookup newName = none →
      r.All.lookup newName = none ∧
      (r.Get newName t).2.breakers.lookup newName
        = some (r.Get newName t).1) := by
  refine ⟨All_eq_breakers r, fun _ => rfl, ?_⟩
  intro h
  constructor
  · rw [All_eq_breakers r, h]
  · rw [Registry.Get, h]
    simp only
    rw [List.lookup, beq_self_eq_true]

theorem C2_halfopen_probes_witness :
    (okCall 3 (okCall 2 (okCall 1 cbHalfOpen))).window.total = 0 ∧
    (okCall 3 (okCall 2 (okCall 1 cbHalfOpen))).window.failureRate = 0 :=
  ⟨(C2_halfopen_probes cbHalfOpen 1 2 3 rfl rfl rfl rfl).2.1,
   (C2_halfopen_probes cbHalfOpen 1 2 3 rfl rfl rfl rfl).2.2.1⟩

theorem C4_cancellation_excluded_witness :
    ((New cfg0 0).Execute 0 true
        (fun _ => (none, some (GoError.opError 7)))).1.window
      = (New cfg0 0).window ∧
    ((New cfg0 0).Execute 0 true
        (fun _ => (none, some (GoError.opError 7)))).1.totalSuccesses
      = (New cfg0 0).totalSuccesses :=
  ⟨(C4_cancellation_excluded (New cfg0 0) 0
      (fun _ => (none, some (GoError.opError 7))) none (GoError.opError 7)
      rfl rfl).1.2.1,
   (C4_cancellation_excluded (New cfg0 0) 0
      (fun _ => (none, some (GoError.opError 7))) none (GoError.opError 7)
      rfl rfl).1.2.2.1⟩

theorem C8_no_self_transition_witness :
    ((New cfg0 0).beforeCall 0).2.2 = [] ∧
    ((New cfg0 0).beforeCall 0).1.lastStateChange
      = (New cfg0 0).lastStateChange ∧
    ((New cfg0 0).afterCall 0 none).2 = [] ∧
    ((New cfg0 0).State 0).2.2 = [] :=
  ⟨((C8_no_self_transition (New cfg0 0) 0 none).1 rfl).1,
   ((C8_no_self_transition (New cfg0 0) 0 none).1 rfl).2,
   ((C8_no_self_transition (New cfg0 0) 0 none).2.1 rfl).1,
   ((C8_no_self_transition (New cfg0 0) 0 none).2.2 rfl).1⟩

theorem C9_window_frozen_while_tripped_witness :
    (cbHalfOpen.beforeCall 0).1.window = cbHalfOpen.window ∧
    (cbHalfOpen.State 0).1.window = cbHalfOpen.window :=
  ⟨(C9_window_frozen_while_tripped cbHalfOpen 0 none (Or.inr rfl)).1,
   (C9_window_frozen_while_tripped cbHalfOpen 0 none (Or.inr rfl)).2.1⟩

theorem C10_lifetime_counters_witness :
    (runCount (New cfg0 0) []).1.totalRequests = ([] : List Call).length ∧
    (cbOpen.Execute 0 false (fun _ => (none, none))).1.totalFailures
      = cbOpen.totalFailures + 1 :=
  ⟨(C10_lifetime_counters cfg0 0 []).1,
   (C10_lifetime_counters cfg0 0 []).2.2.2.2 cbOpen 0 false
     (fun _ => (none, none)) rfl⟩

theorem C6_registry_idempotent_witness :
    ((reg0.Get "a" 0).2.Get "a" 1
      = ((reg0.Get "a" 0).1, (reg0.Get "a" 0).2)) ∧
    ((reg0.GetWithConfig "a" (cfgC1 30) 0).1 = New { cfgC1 30 with Name := "a" } 0) ∧
    ((reg0.GetWithConfig "a" (cfgC1 30) 0).2.GetWithConfig "a" cfg0 1
      = ((reg0.GetWithConfig "a" (cfgC1 30) 0).1,
         (reg0.GetWithConfig "a" (cfgC1 30) 0).2)) :=
  ⟨((C6_registry_idempotent reg0 "a" cfg0 cfg0 0 1).2.2.1 rfl).2.2.2.1,
   ((C6_registry_idempotent reg0 "a" (cfgC1 30) cfg0 0 1).2.2.2 rfl).1,
   ((C6_registry_idempotent reg0 "a" (cfgC1 30) cfg0 0 1).2.2.2 rfl).2.2.2.2⟩

theorem C7_snapshot_independent_witness :
    reg0.All.lookup "b" = none ∧
    (reg0.Get "b" 0).2.breakers.lookup "b" = some (reg0.Get "b" 0).1 :=
  (C7_snapshot_independent reg0 "b" 0 id).2.2 rfl
